import Mathlib

/-!
Verification development for the Ultimaker Home Assistant sensor platform
(`custom_components/ultimaker/sensor.py`).

The Python module is shallowly embedded: JSON values are modelled by the
inductive type `JVal` (Python `None` and JSON `null` are both `JVal.null`,
numbers are rationals, `datetime` stamps are `JVal.time`), Python dicts by
association lists, and Python exceptions by the error side of `Except PyErr`.
Each definition mirrors one function, method or constant of the source file.
-/

namespace Ultimaker

/-- A JSON/Python value as it occurs in the payloads handled by `sensor.py`.
`null` stands both for JSON `null` and Python `None`; `num` models JSON
numbers as rationals; `time` models the `datetime` object stored under
`sampleTime`. -/
inductive JVal where
  | null
  | bool (b : Bool)
  | num (q : ℚ)
  | str (s : String)
  | time (t : ℕ)
  | arr (xs : List JVal)
  | obj (fields : List (String × JVal))

/-- A Python dict with string keys, as produced by `response.json()`. -/
abbrev Dict := List (String × JVal)

/-- Key lookup in a dict: the value of the first binding of `k`, if any.
Models Python `d[k]` / `d.get(k)` definedness. -/
def dictFind (d : Dict) (k : String) : Option JVal :=
  (d.find? (fun p => p.1 == k)).map (fun p => p.2)

/-- Python `k in d`. -/
def hasKey (d : Dict) (k : String) : Bool :=
  d.any (fun p => p.1 == k)

/-- Python `d.get(k, default)`. -/
def pyGetD (d : Dict) (k : String) (default : JVal) : JVal :=
  (dictFind d k).getD default

/-- Python `d.get(k)` (equivalently `d.get(k, None)`). -/
def pyGet (d : Dict) (k : String) : JVal :=
  pyGetD d k .null

/-- Python `d[k] = v`: overwrite the binding of `k` if present, else append. -/
def dictSet (d : Dict) (k : String) (v : JVal) : Dict :=
  if hasKey d k then d.map (fun p => if p.1 == k then (k, v) else p)
  else d ++ [(k, v)]

/-- Python `d.update(o)`: bindings of `o` win over bindings of `d`; the keys of
`d` not occurring in `o` keep their values. -/
def dictUpdate (d o : Dict) : Dict :=
  d.filter (fun p => !(hasKey o p.1)) ++ o

/-- Python truthiness of a value (`if v:`). -/
def truthy : JVal → Bool
  | .null => false
  | .bool b => b
  | .num q => decide (q ≠ 0)
  | .str s => decide (s ≠ "")
  | .time _ => true
  | .arr xs => !xs.isEmpty
  | .obj o => !o.isEmpty

/-- The Python exceptions that can arise in the embedded code paths. -/
inductive PyErr where
  | clientError
  | indexError
  | keyError (k : String)
  | attributeError
  | typeError
  | valueError
  | stopIteration
deriving DecidableEq

/-! ### String helpers (Python `in`, `split`, `replace`, `int`) -/

/-- `startsWithChars l pat`: `l` begins with `pat`. -/
def startsWithChars : List Char → List Char → Bool
  | _, [] => true
  | [], _ :: _ => false
  | a :: as, b :: bs => a == b && startsWithChars as bs

/-- `hasSubChars pat l`: `pat` occurs contiguously in `l`. -/
def hasSubChars (pat : List Char) : List Char → Bool
  | [] => pat.isEmpty
  | l@(_ :: t) => startsWithChars l pat || hasSubChars pat t

/-- Python `pat in s` on strings. -/
def strContains (s pat : String) : Bool :=
  hasSubChars pat.toList s.toList

/-- Python `s.split(sep)` for a one-character separator. -/
def splitChars (sep : Char) : List Char → List (List Char)
  | [] => [[]]
  | c :: cs =>
    let r := splitChars sep cs
    if c == sep then [] :: r
    else
      match r with
      | [] => [[c]]
      | h :: t => (c :: h) :: t

/-- Python `int(s)` restricted to unsigned decimal digit strings; `none` models
the `ValueError` raised on anything else. -/
def parseNat? (cs : List Char) : Option ℕ :=
  if cs.isEmpty then none
  else if cs.all Char.isDigit then
    some (cs.foldl (fun a c => a * 10 + (c.toNat - Char.toNat '0')) 0)
  else none

/-- Python `s.replace("_", " ")`. -/
def strReplaceUnderscores (s : String) : String :=
  String.mk (s.toList.map (fun c => if c == '_' then ' ' else c))

/-! ### `UltimakerStatusData`: fetching and merging -/

/-- Outcome of one HTTP GET against an endpoint, abstracting the network:
either the request succeeds and the body parses to the dict `payload`, or one
of the failure modes of `fetch_data` occurs. -/
inductive FetchOutcome where
  | success (payload : Dict)
  | clientError
  | timeout
  | otherError
  | parseError

/-- `UltimakerStatusData.fetch_data`. An `aiohttp.ClientError` is logged and
re-raised. On `asyncio.TimeoutError` the handler only logs, control falls
through to `response.json()` where the unbound `response` raises an
`UnboundLocalError` that the blanket `except Exception` of the parse block
catches, so the call returns `{}`; an unknown request error or a body parse
failure returns `{}` directly. -/
def fetch_data : FetchOutcome → Except PyErr Dict
  | .success payload => .ok payload
  | .clientError => .error .clientError
  | .timeout => .ok []
  | .otherError => .ok []
  | .parseError => .ok []

/-- Lines 796 to 798 of `async_update`: `self._data = printer_data.copy()`,
then `update(print_job_data)`, then `update(system_data)`. -/
def mergedData (printer printJob system : Dict) : Dict :=
  dictUpdate (dictUpdate printer printJob) system

/-- The fallback snapshot published on a connection-level failure:
`{"status": "not connected"}` with the `sampleTime` stamp added. -/
def fallbackSnapshot (now : ℕ) : Dict :=
  [("status", .str "not connected"), ("sampleTime", .time now)]

/-- The body of `UltimakerStatusData.async_update` for a configured host, once
the throttle has let the call through: fetch the three endpoints in order,
merge the payloads, map `aiohttp.ClientError` to the fallback snapshot, and
stamp the result with `sampleTime`. -/
def refreshCore (now : ℕ) (printer printJob system : FetchOutcome) : Dict :=
  let merged : Except PyErr Dict := do
    let printerData ← fetch_data printer
    let printJobData ← fetch_data printJob
    let systemData ← fetch_data system
    .ok (mergedData printerData printJobData systemData)
  let d := match merged with
    | .ok d => d
    | .error _ => [("status", .str "not connected")]
  dictSet d "sampleTime" (.time now)

/-- `MIN_TIME_BETWEEN_UPDATES = timedelta(seconds=10)`, in seconds. -/
def MIN_TIME_BETWEEN_UPDATES : ℕ := 10

/-- The mutable state of an `UltimakerStatusData` object: the time of the last
attempt recorded by its throttle, and `self._data` (which is `None` until a
first refresh runs with a configured host). -/
structure ThrottledSource where
  lastAttempt : Option ℕ
  data : Option Dict

/-- Modelled from the spec: the `@Throttle(MIN_TIME_BETWEEN_UPDATES)` decorator
wrapping `async_update` comes from `homeassistant.util`, which is not part of
this repository's sources. Per the spec (section 4.1), a call made less than
the minimum interval after the last refresh attempt returns immediately
without making a request; otherwise the wrapped body runs (which, with a
configured host, issues the three endpoint requests and replaces the
snapshot, and without a host does nothing). The second component counts the
network requests issued by the call. -/
def refresh (s : ThrottledSource) (now : ℕ) (host : Bool)
    (printer printJob system : FetchOutcome) : ThrottledSource × ℕ :=
  let run : ThrottledSource × ℕ :=
    ({ lastAttempt := some now,
       data := if host then some (refreshCore now printer printJob system) else s.data },
     if host then 3 else 0)
  match s.lastAttempt with
  | some t => if now - t < MIN_TIME_BETWEEN_UPDATES then (s, 0) else run
  | none => run

end Ultimaker

namespace Ultimaker

/-! ### Static material catalog (`MATERIAL_LIST`) -/

/-- One entry of the static `MATERIAL_LIST` table. -/
structure Material where
  guid : String
  brand : String
  material : String
  color : String
  version : ℕ
  density : ℚ

set_option maxHeartbeats 2000000 in
/-- The `MATERIAL_LIST` constant of `sensor.py`, transcribed entry by entry. -/
def MATERIAL_LIST : List Material := [
  ⟨"7cbdb9ca-081a-456f-a6ba-f73e4e9cb856", "Ultimaker", "ABS", "Pearl Gold", 28, (11/10 : ℚ)⟩,
  ⟨"60636bb4-518f-42e7-8237-fe77b194ebe0", "Generic", "ABS", "Generic", 25, (11/10 : ℚ)⟩,
  ⟨"7e6207c4-22ff-441a-b261-ff89f166d6a0", "Generic", "Breakaway", "Generic", 25, (122/100 : ℚ)⟩,
  ⟨"12f41353-1a33-415e-8b4f-a775a6c70cc6", "Generic", "CPE", "Generic", 28, (127/100 : ℚ)⟩,
  ⟨"e2409626-b5a0-4025-b73e-b58070219259", "Generic", "CPE+", "Generic", 27, (118/100 : ℚ)⟩,
  ⟨"28fb4162-db74-49e1-9008-d05f1e8bef5c", "Generic", "Nylon", "Generic", 24, (114/100 : ℚ)⟩,
  ⟨"98c05714-bf4e-4455-ba27-57d74fe331e4", "Generic", "PC", "Generic", 26, (119/100 : ℚ)⟩,
  ⟨"1cbfaeb3-1906-4b26-b2e7-6f777a8c197a", "Generic", "PETG", "Generic", 13, (127/100 : ℚ)⟩,
  ⟨"506c9f0d-e3aa-4bd4-b2d2-23e2425b1aa9", "Generic", "PLA", "Generic", 25, (124/100 : ℚ)⟩,
  ⟨"aa22e9c7-421f-4745-afc2-81851694394a", "Generic", "PP", "Generic", 27, (89/100 : ℚ)⟩,
  ⟨"86a89ceb-4159-47f6-ab97-e9953803d70f", "Generic", "PVA", "Generic", 26, (123/100 : ℚ)⟩,
  ⟨"9d5d2d7c-4e77-441c-85a0-e9eefd4aa68c", "Generic", "Tough PLA", "Generic", 19, (124/100 : ℚ)⟩,
  ⟨"1d52b2be-a3a2-41de-a8b1-3bcdb5618695", "Generic", "TPU 95A", "Generic", 27, (122/100 : ℚ)⟩,
  ⟨"2f9d2279-9b0e-4765-bf9b-d1e1e13f3c49", "Ultimaker", "ABS", "Black", 28, (11/10 : ℚ)⟩,
  ⟨"7c9575a6-c8d6-40ec-b3dd-18d7956bfaae", "Ultimaker", "ABS", "Blue", 28, (11/10 : ℚ)⟩,
  ⟨"3400c0d1-a4e3-47de-a444-7b704f287171", "Ultimaker", "ABS", "Green", 28, (11/10 : ℚ)⟩,
  ⟨"8b75b775-d3f2-4d0f-8fb2-2a3dd53cf673", "Ultimaker", "ABS", "Grey", 28, (11/10 : ℚ)⟩,
  ⟨"0b4ca6ef-eac8-4b23-b3ca-5f21af00e54f", "Ultimaker", "ABS", "Orange", 28, (11/10 : ℚ)⟩,
  ⟨"763c926e-a5f7-4ba0-927d-b4e038ea2735", "Ultimaker", "ABS", "Silver Metallic", 28, (11/10 : ℚ)⟩,
  ⟨"5df7afa6-48bd-4c19-b314-839fe9f08f1f", "Ultimaker", "ABS", "Red", 28, (11/10 : ℚ)⟩,
  ⟨"173a7bae-5e14-470e-817e-08609c61e12b", "Ultimaker", "CPE", "Light Grey", 31, (127/100 : ℚ)⟩,
  ⟨"5253a75a-27dc-4043-910f-753ae11bc417", "Ultimaker", "ABS", "White", 28, (11/10 : ℚ)⟩,
  ⟨"e873341d-d9b8-45f9-9a6f-5609e1bcff68", "Ultimaker", "ABS", "Yellow", 28, (11/10 : ℚ)⟩,
  ⟨"7e6207c4-22ff-441a-b261-ff89f166d5f9", "Ultimaker", "Breakaway", "White", 29, (122/100 : ℚ)⟩,
  ⟨"a8955dc3-9d7e-404d-8c03-0fd6fee7f22d", "Ultimaker", "CPE", "Black", 31, (127/100 : ℚ)⟩,
  ⟨"4d816290-ce2e-40e0-8dc8-3f702243131e", "Ultimaker", "CPE", "Blue", 31, (127/100 : ℚ)⟩,
  ⟨"10961c00-3caf-48e9-a598-fa805ada1e8d", "Ultimaker", "CPE", "Dark Grey", 31, (127/100 : ℚ)⟩,
  ⟨"7ff6d2c8-d626-48cd-8012-7725fa537cc9", "Ultimaker", "CPE", "Green", 31, (127/100 : ℚ)⟩,
  ⟨"1f3c3be1-2e60-4343-b35d-cb383958d992", "Ultimaker", "PETG", "Green Translucent", 30, (127/100 : ℚ)⟩,
  ⟨"1aca047a-42df-497c-abfb-0e9cb85ead52", "Ultimaker", "CPE+", "Black", 29, (118/100 : ℚ)⟩,
  ⟨"a9c340fe-255f-4914-87f5-ec4fcb0c11ef", "Ultimaker", "CPE+", "Transparent", 29, (118/100 : ℚ)⟩,
  ⟨"6df69b13-2d96-4a69-a297-aedba667e710", "Ultimaker", "CPE+", "White", 29, (118/100 : ℚ)⟩,
  ⟨"00181d6c-7024-479a-8eb7-8a2e38a2619a", "Ultimaker", "CPE", "Red", 31, (127/100 : ℚ)⟩,
  ⟨"bd0d9eb3-a920-4632-84e8-dcd6086746c5", "Ultimaker", "CPE", "Transparent", 31, (127/100 : ℚ)⟩,
  ⟨"881c888e-24fb-4a64-a4ac-d5c95b096cd7", "Ultimaker", "CPE", "White", 31, (127/100 : ℚ)⟩,
  ⟨"b9176a2a-7a0f-4821-9f29-76d882a88682", "Ultimaker", "CPE", "Yellow", 31, (127/100 : ℚ)⟩,
  ⟨"c64c2dbe-5691-4363-a7d9-66b2dc12837f", "Ultimaker", "Nylon", "Black", 27, (114/100 : ℚ)⟩,
  ⟨"e256615d-a04e-4f53-b311-114b90560af9", "Ultimaker", "Nylon", "Transparent", 27, (114/100 : ℚ)⟩,
  ⟨"e92b1f0b-a069-4969-86b4-30127cfb6f7b", "Ultimaker", "PC", "Black", 29, (119/100 : ℚ)⟩,
  ⟨"8a38a3e9-ecf7-4a7d-a6a9-e7ac35102968", "Ultimaker", "PC", "Transparent", 29, (119/100 : ℚ)⟩,
  ⟨"5e786b05-a620-4a87-92d0-f02becc1ff98", "Ultimaker", "PC", "White", 29, (119/100 : ℚ)⟩,
  ⟨"3ee70a86-77d8-4b87-8005-e4a1bc57d2ce", "Ultimaker", "PLA", "Black", 26, (124/100 : ℚ)⟩,
  ⟨"44a029e6-e31b-4c9e-a12f-9282e29a92ff", "Ultimaker", "PLA", "Blue", 26, (124/100 : ℚ)⟩,
  ⟨"2433b8fb-dcd6-4e36-9cd5-9f4ee551c04c", "Ultimaker", "PLA", "Green", 26, (124/100 : ℚ)⟩,
  ⟨"fe3982c8-58f4-4d86-9ac0-9ff7a3ab9cbc", "Ultimaker", "PLA", "Magenta", 26, (124/100 : ℚ)⟩,
  ⟨"d9549dba-b9df-45b9-80a5-f7140a9a2f34", "Ultimaker", "PLA", "Orange", 26, (124/100 : ℚ)⟩,
  ⟨"d9fc79db-82c3-41b5-8c99-33b3747b8fb3", "Ultimaker", "PLA", "Pearl-White", 26, (124/100 : ℚ)⟩,
  ⟨"9cfe5bf1-bdc5-4beb-871a-52c70777842d", "Ultimaker", "PLA", "Red", 26, (124/100 : ℚ)⟩,
  ⟨"e509f649-9fe6-4b14-ac45-d441438cb4ef", "Ultimaker", "PLA", "White", 26, (124/100 : ℚ)⟩,
  ⟨"0e01be8c-e425-4fb1-b4a3-b79f255f1db9", "Ultimaker", "PLA", "Silver Metallic", 26, (124/100 : ℚ)⟩,
  ⟨"532e8b3d-5fd4-4149-b936-53ada9bd6b85", "Ultimaker", "PLA", "Transparent", 26, (124/100 : ℚ)⟩,
  ⟨"fe15ed8a-33c3-4f57-a2a7-b4b78a38c3cb", "Ultimaker", "PVA", "Natural", 30, (123/100 : ℚ)⟩,
  ⟨"03f24266-0291-43c2-a6da-5211892a2699", "Ultimaker", "Tough PLA", "Black", 22, (122/100 : ℚ)⟩,
  ⟨"07a4547f-d21f-41a0-8eee-bc92125221b3", "Ultimaker", "TPU 95A", "Red", 30, (122/100 : ℚ)⟩,
  ⟨"c8e4a85e-b256-4468-8516-0aa98c69c7d7", "Ultimaker", "PETG", "Green", 30, (127/100 : ℚ)⟩,
  ⟨"c8394116-30ba-4112-b4d9-8b2394278cb3", "Ultimaker", "PETG", "Grey", 30, (127/100 : ℚ)⟩,
  ⟨"a02a3978-eb33-47ca-b32b-d08b92b58638", "Ultimaker", "PETG", "Orange", 30, (127/100 : ℚ)⟩,
  ⟨"9680dff6-7aa5-400b-982c-40a0de06a718", "Ultimaker", "PETG", "Red", 30, (127/100 : ℚ)⟩,
  ⟨"40a273c6-0e15-4db5-a278-8eb0b4a9e293", "Ultimaker", "PETG", "Silver", 30, (127/100 : ℚ)⟩,
  ⟨"61eb5c6c-0110-49de-9756-13b8c7cc2ff1", "Ultimaker", "PETG", "White", 30, (127/100 : ℚ)⟩,
  ⟨"d67a3ccb-6b51-4013-bdac-4c59e952aaf4", "Ultimaker", "PETG", "Yellow Fluorescent", 30, (127/100 : ℚ)⟩,
  ⟨"9c1959d0-f597-46ec-9131-34020c7a54fc", "Ultimaker", "PLA", "Yellow", 26, (124/100 : ℚ)⟩,
  ⟨"c7005925-2a41-4280-8cdd-4029e3fe5253", "Ultimaker", "PP", "Transparent", 30, (89/100 : ℚ)⟩,
  ⟨"6d71f4ad-29ab-4b50-8f65-22d99af294dd", "Ultimaker", "Tough PLA", "Green", 22, (122/100 : ℚ)⟩,
  ⟨"2db25566-9a91-4145-84a5-46c90ed22bdf", "Ultimaker", "Tough PLA", "Red", 22, (124/100 : ℚ)⟩,
  ⟨"851427a0-0c9a-4d7c-a9a8-5cc92f84af1f", "Ultimaker", "Tough PLA", "White", 22, (124/100 : ℚ)⟩,
  ⟨"eff40bcf-588d-420d-a3bc-a5ffd8c7f4b3", "Ultimaker", "TPU 95A", "Black", 30, (122/100 : ℚ)⟩,
  ⟨"5f4a826c-7bfe-460f-8650-a9178b180d34", "Ultimaker", "TPU 95A", "Blue", 30, (122/100 : ℚ)⟩,
  ⟨"6a2573e6-c8ee-4c66-8029-3ebb3d5adc5b", "Ultimaker", "TPU 95A", "White", 30, (122/100 : ℚ)⟩,
  ⟨"5f9f3de0-045b-48d9-84ec-19db92be7603", "Ultimaker", "PETG", "Black", 30, (127/100 : ℚ)⟩,
  ⟨"2257ab94-fb27-42e6-865c-05aa6717504b", "Ultimaker", "PETG", "Blue", 30, (127/100 : ℚ)⟩,
  ⟨"e0af2080-29fc-4b18-a5c0-42ca112f507f", "Ultimaker", "PETG", "Blue Translucent", 30, (127/100 : ℚ)⟩,
  ⟨"218379df-4a67-4668-b5f8-2a14c92bce96", "Ultimaker", "PETG", "Yellow", 30, (127/100 : ℚ)⟩,
  ⟨"c8639119-5cae-4f56-9bcf-3bb00e8225fd", "Ultimaker", "PETG", "Red Translucent", 30, (127/100 : ℚ)⟩,
  ⟨"7418eca4-e2c4-45b1-a022-37180861fd39", "Ultimaker", "PETG", "Transparent", 30, (127/100 : ℚ)⟩,
  ⟨"55317359-2538-4b89-855d-e74d3c3d5916", "DSM", "Novamid ID 1030 CF", "Generic", 1, 1⟩,
  ⟨"efbc209c-14ec-4671-acca-93eef5a207f8", "Owens Corning", "XSTRAND GF30-PA6", "Generic", 2, (117/100 : ℚ)⟩,
  ⟨"6660eb2e-aa40-49ad-ac9b-ada979f3de9b", "Ultimaker", "Tough PLA", "Gray", 12, (124/100 : ℚ)⟩,
  ⟨"4b049931-6ee9-408c-8588-ddd4673467d1", "Ultimaker", "Tough PLA", "Blue", 12, (124/100 : ℚ)⟩,
  ⟨"bfdb0787-032d-4cf5-9975-964132bd641c", "Ultimaker", "Tough PLA", "Yellow", 12, (124/100 : ℚ)⟩
]

/-- The 16 metric identifiers: the keys of the `SENSOR_TYPES` dict. -/
def SENSOR_TYPES : List String :=
  ["status", "state", "progress",
   "bed_temperature", "bed_temperature_target", "bed_type",
   "hotend_1_temperature", "hotend_1_temperature_target", "hotend_1_id",
   "hotend_2_temperature", "hotend_2_temperature_target", "hotend_2_id",
   "active_material_1_guid", "active_material_2_guid",
   "active_material_1_length_remaining", "active_material_2_length_remaining"]

/-! ### Python operations used by `UltimakerStatusSensor.async_update` -/

/-- Python `v[k]` for a string key: a key lookup on a dict, a `KeyError` when
the key is missing, a `TypeError` on anything that is not a dict. -/
def pyIndexKey (v : JVal) (k : String) : Except PyErr JVal :=
  match v with
  | .obj o =>
    match dictFind o k with
    | some x => .ok x
    | none => .error (.keyError k)
  | _ => .error .typeError

/-- Python `v.get(k, None)`: defined for dicts, an `AttributeError` on any
other value (including `None`). -/
def pyAttrGet (v : JVal) (k : String) : Except PyErr JVal :=
  match v with
  | .obj o => .ok (pyGet o k)
  | _ => .error .attributeError

/-- Python `xs[i]` on a list with an `Int` index: negative indices count from
the end, out-of-range indices raise `IndexError`. -/
def pyListGet (xs : List JVal) (i : ℤ) : Except PyErr JVal :=
  let j := if i < 0 then i + xs.length else i
  if j < 0 then .error .indexError
  else
    match xs.get? j.toNat with
    | some v => .ok v
    | none => .error .indexError

/-- Python `v[i]` with an `Int` index: lists index into their elements, strings
into one-character strings, everything else raises `TypeError`. -/
def pySubscript (v : JVal) (i : ℤ) : Except PyErr JVal :=
  match v with
  | .arr xs => pyListGet xs i
  | .str s =>
    match (s.toList.map (fun c => JVal.str (String.mk [c]))) with
    | [] => .error .indexError
    | xs => pyListGet xs i
  | _ => .error .typeError

/-- `data.get("heads", [None])[0]`: when `heads` is missing the default list
`[None]` makes the subscript yield `None`; otherwise the subscript applies to
the actual value of `heads` (an `IndexError` on an empty list). -/
def headsFirst (data : Dict) : Except PyErr JVal :=
  match dictFind data "heads" with
  | none => .ok .null
  | some v => pySubscript v 0

/-- `int(self._type.split("_")[pos]) - 1`: split the metric identifier on
underscores, take component `pos` (an `IndexError` when absent), parse it as an
integer (a `ValueError` when not numeric), and subtract one. -/
def extruderIdx (ty : String) (pos : ℕ) : Except PyErr ℤ :=
  match (splitChars '_' ty.toList).get? pos with
  | none => .error .indexError
  | some cs =>
    match parseNat? cs with
    | none => .error .valueError
    | some n => .ok ((n : ℤ) - 1)

/-- Python `v * 100` as applied to `self._state` in the `progress` branch:
numbers scale, booleans coerce to 0 or 1, strings and lists repeat, and the
remaining values raise `TypeError`. -/
def pyMul100 : JVal → Except PyErr JVal
  | .num q => .ok (.num (q * 100))
  | .bool b => .ok (.num ((if b then 1 else 0) * 100))
  | .str s => .ok (.str (String.join (List.replicate 100 s)))
  | .arr xs => .ok (.arr (List.flatten (List.replicate 100 xs)))
  | _ => .error .typeError

/-- Python `v / 1000` as applied to `length_remaining`: true division on a
number (or boolean), a `TypeError` on anything else. -/
def pyDiv1000 : JVal → Except PyErr JVal
  | .num q => .ok (.num (q / 1000))
  | .bool b => .ok (.num ((if b then 1 else 0) / 1000))
  | _ => .error .typeError

/-- `UltimakerStatusSensor.__translate`: `next(d for d in MATERIAL_LIST if
d["guid"] == guid)` with no default raises `StopIteration` when no entry
matches; otherwise the result is `"{material} - {color}"` for the first
matching entry. Python equality between a string and a non-string is `False`. -/
def translate (guid : JVal) : Except PyErr JVal :=
  match MATERIAL_LIST.find? (fun d =>
      match guid with
      | .str g => d.guid == g
      | _ => false) with
  | none => .error .stopIteration
  | some d => .ok (.str (d.material ++ " - " ++ d.color))

/-- The metric-extraction part of `UltimakerStatusSensor.async_update` (lines
887 to 937): given the metric identifier `self._type`, the snapshot `data` and
the previous `self._state`, compute the new `self._state`, or the Python
exception the branch raises. Branches that assign nothing leave `prev`. -/
def extractState (ty : String) (data : Dict) (prev : JVal) : Except PyErr JVal :=
  if ty == "status" then
    .ok (pyGetD data "status" (.str "not connected"))
  else if ty == "state" then
    let v := pyGet data "state"
    if truthy v then
      match v with
      | .str s => .ok (.str (strReplaceUnderscores s))
      | _ => .error .attributeError
    else .ok v
  else if ty == "progress" then
    let v := pyGetD data "progress" (.num 0)
    if truthy v then pyMul100 v else .ok v
  else if strContains ty "bed" then do
    let bed := pyGet data "bed"
    let s1 ←
      if strContains ty "temperature" && truthy bed then do
        let temperature ← pyAttrGet bed "temperature"
        if truthy temperature then
          if strContains ty "target" then pyAttrGet temperature "target"
          else pyAttrGet temperature "current"
        else .ok prev
      else .ok prev
    if strContains ty "type" && truthy bed then pyAttrGet bed "type"
    else .ok s1
  else if strContains ty "hotend" then do
    let head ← headsFirst data
    if truthy head then do
      let idx ← extruderIdx ty 1
      let extruders ← pyIndexKey head "extruders"
      let extruder ← pySubscript extruders idx
      let hotend ← pyIndexKey extruder "hotend"
      let s1 ←
        if strContains ty "temperature" && truthy hotend then do
          let temperature ← pyIndexKey hotend "temperature"
          if strContains ty "target" then pyAttrGet temperature "target"
          else pyAttrGet temperature "current"
        else .ok prev
      if strContains ty "id" && truthy hotend then pyIndexKey hotend "id"
      else .ok s1
    else .ok prev
  else if strContains ty "active_material" then do
    let head ← headsFirst data
    if truthy head then do
      let idx ← extruderIdx ty 2
      let extruders ← pyIndexKey head "extruders"
      let extruder ← pySubscript extruders idx
      let activeMaterial ← pyIndexKey extruder "active_material"
      let s1 ←
        if strContains ty "guid" && truthy activeMaterial then do
          let g ← pyIndexKey activeMaterial "guid"
          translate g
        else .ok prev
      if strContains ty "length_remaining" && truthy activeMaterial then do
        let lr ← pyIndexKey activeMaterial "length_remaining"
        pyDiv1000 lr
      else .ok s1
    else .ok prev
  else .ok prev

/-- The mutable per-sensor state of `UltimakerStatusSensor`: `self._state` and
`self._last_updated` (both `None` after `__init__`). -/
structure SensorState where
  state : JVal
  lastUpdated : JVal

/-- The sensor state right after `UltimakerStatusSensor.__init__`. -/
def initSensorState : SensorState := ⟨.null, .null⟩

/-- `UltimakerStatusSensor.async_update`: read the data source's latest
snapshot; when it is `None` or empty (`if data:`), do nothing; otherwise set
`self._last_updated` from `sampleTime` and run the extraction branches. -/
def sensorAsyncUpdate (ty : String) (latest : Option Dict) (s : SensorState) :
    Except PyErr SensorState :=
  match latest with
  | none => .ok s
  | some data =>
    if data.isEmpty then .ok s
    else do
      let st ← extractState ty data s.state
      .ok { state := st, lastUpdated := pyGet data "sampleTime" }

/-! ### Presentation (`UltimakerStatusSensor.state` property) -/

/-- Round-half-to-even on a rational, the rounding Python's builtin `round`
applies to floats. -/
def roundHalfEven (x : ℚ) : ℤ :=
  if x - ⌊x⌋ < 1/2 then ⌊x⌋
  else if 1/2 < x - ⌊x⌋ then ⌊x⌋ + 1
  else if ⌊x⌋ % 2 = 0 then ⌊x⌋ else ⌊x⌋ + 1

/-- Python `round(x, n)` on a float modelled as a rational. -/
def pyRound (x : ℚ) (n : ℕ) : ℚ :=
  (roundHalfEven (x * 10 ^ n) : ℚ) / 10 ^ n

/-- The `state` property of `UltimakerStatusSensor`: a float state is rounded
to `self._decimal` digits at presentation time, every other value (strings,
`None`, ...) is returned unchanged. -/
def stateProperty (st : JVal) (decimal : ℕ) : JVal :=
  match st with
  | .num q => .num (pyRound q decimal)
  | v => v

end Ultimaker


namespace Ultimaker

/-- A snapshot whose bed reports `q` as its current temperature, the shape the
`/printer` endpoint returns under `bed.temperature.current`. -/
def bedSnap (q : ℚ) : Dict :=
  [("bed", .obj [("temperature", .obj [("current", .num q)])])]

/-! ## Helper lemmas about dict merging -/

/-- `find?` is unaffected by filtering with a predicate that the search
predicate implies. -/
theorem find?_filter_of_imp {α : Type} (p q : α → Bool) (l : List α)
    (h : ∀ x, p x = true → q x = true) : (l.filter q).find? p = l.find? p := by
  induction l with
  | nil => rfl
  | cons a t ih =>
    by_cases hq : q a = true
    · rw [List.filter_cons_of_pos hq]
      by_cases hp : p a = true
      · rw [List.find?_cons_of_pos _ hp, List.find?_cons_of_pos _ hp]
      · rw [List.find?_cons_of_neg _ hp, List.find?_cons_of_neg _ hp, ih]
    · rw [List.filter_cons_of_neg (by simpa using hq)]
      have hp : ¬p a = true := fun hpa => hq (h a hpa)
      rw [List.find?_cons_of_neg _ hp, ih]

/-- Lookup in a Python `dict.update` result: the updating dict wins on any key
it defines, the updated dict answers the rest. -/
theorem dictFind_update (d o : Dict) (k : String) :
    dictFind (dictUpdate d o) k = (dictFind o k).or (dictFind d k) := by
  by_cases hk : hasKey o k = true
  · have hnone : (d.filter (fun p => !(hasKey o p.1))).find? (fun p => p.1 == k) = none := by
      rw [List.find?_eq_none]
      intro x hx hpx
      have hmem := List.mem_filter.mp hx
      have hfalse : hasKey o x.1 = false := by simpa using hmem.2
      rw [show x.1 = k from by simpa using hpx, hk] at hfalse
      cases hfalse
    obtain ⟨v, hv⟩ : ∃ v, o.find? (fun p => p.1 == k) = some v := by
      have hs : (o.find? (fun p => p.1 == k)).isSome := by
        rw [List.find?_isSome]
        simpa [hasKey, List.any_eq_true] using hk
      exact Option.isSome_iff_exists.mp hs
    simp [dictFind, dictUpdate, List.find?_append, hnone, hv]
  · have hfilter : (d.filter (fun p => !(hasKey o p.1))).find? (fun p => p.1 == k)
        = d.find? (fun p => p.1 == k) := by
      apply find?_filter_of_imp
      intro x hpx
      rw [show x.1 = k from by simpa using hpx]
      simpa using hk
    have honone : o.find? (fun p => p.1 == k) = none := by
      rw [List.find?_eq_none]
      intro x hx hpx
      exact hk (by
        rw [hasKey, List.any_eq_true]
        exact ⟨x, hx, hpx⟩)
    cases hd : d.find? (fun p => p.1 == k) <;>
      simp [dictFind, dictUpdate, List.find?_append, hfilter, honone, hd]

/-- Updating with the empty dict changes nothing. -/
theorem dictUpdate_nil_right (d : Dict) : dictUpdate d [] = d := by
  simp [dictUpdate, hasKey]

end Ultimaker

namespace Ultimaker

/-! ## Claim theorems -/

/-- C1 (counterexample to the claim as stated): with printer payload `{}`,
print-job payload `{state: "printing"}` and system payload `{state: "idle"}`,
the print-job payload defines `state`, yet the merged snapshot's value for
`state` is the system payload's `"idle"`, not the print-job payload's
`"printing"`. -/
theorem merged_value_claim_counterexample :
    dictFind [("state", JVal.str "printing")] "state" = some (.str "printing") ∧
    dictFind (mergedData [] [("state", JVal.str "printing")] [("state", JVal.str "idle")])
      "state" = some (.str "idle") ∧
    JVal.str "idle" ≠ JVal.str "printing" :=
  ⟨rfl, rfl, by simp⟩

/-- C1 (amended): for every triple of endpoint payloads merged into a snapshot
by `async_update`, the merged value for any key equals the system payload's
value if system defines it, else the print-job payload's value if print-job
defines it, else the printer payload's value; and the published snapshot is
exactly this merge stamped with `sampleTime`. -/
theorem merged_value_precedence (printer printJob system : Dict) (k : String) (now : ℕ) :
    dictFind (mergedData printer printJob system) k =
      ((dictFind system k).or ((dictFind printJob k).or (dictFind printer k))) ∧
    refreshCore now (.success printer) (.success printJob) (.success system)
      = dictSet (mergedData printer printJob system) "sampleTime" (.time now) := by
  constructor
  · rw [mergedData, dictFind_update, dictFind_update]
  · rfl

/-- C2: when exactly one endpoint times out and the other two succeed,
`fetch_data` returns the empty dict for the timed-out endpoint, `async_update`
raises nothing (it is a total function into snapshots here), and the published
snapshot is the merge of the two successful payloads stamped with
`sampleTime` — whichever of the three endpoints timed out. -/
theorem single_timeout_empty_contribution (pp ps : Dict) (now : ℕ) :
    fetch_data .timeout = .ok [] ∧
    refreshCore now .timeout (.success pp) (.success ps)
      = dictSet (dictUpdate pp ps) "sampleTime" (.time now) ∧
    refreshCore now (.success pp) .timeout (.success ps)
      = dictSet (dictUpdate pp ps) "sampleTime" (.time now) ∧
    refreshCore now (.success pp) (.success ps) .timeout
      = dictSet (dictUpdate pp ps) "sampleTime" (.time now) := by
  refine ⟨rfl, rfl, ?_, ?_⟩
  · show dictSet (mergedData pp [] ps) "sampleTime" (.time now)
        = dictSet (dictUpdate pp ps) "sampleTime" (.time now)
    rw [mergedData, dictUpdate_nil_right]
  · show dictSet (mergedData pp ps []) "sampleTime" (.time now)
        = dictSet (dictUpdate pp ps) "sampleTime" (.time now)
    rw [mergedData, dictUpdate_nil_right]

/-- C3 (the code contradicts the claim): the extractor only guards `heads`
being absent (first conjunct). An empty `heads` list raises `IndexError`
(second and last conjunct), a missing extruder slot `N-1` raises `IndexError`
(third and fourth conjunct), and a missing `hotend` key raises `KeyError`
(fifth conjunct), instead of yielding null. -/
theorem hotend_missing_raises :
    extractState "hotend_1_temperature" [] .null = .ok .null ∧
    extractState "hotend_1_temperature" [("heads", .arr [])] .null = .error .indexError ∧
    extractState "hotend_1_temperature"
      [("heads", .arr [.obj [("extruders", .arr [])]])] .null = .error .indexError ∧
    extractState "hotend_2_temperature"
      [("heads", .arr [.obj [("extruders",
        .arr [.obj [("hotend", .obj [("temperature", .obj [("current", .num 60)])])]])]])]
      .null = .error .indexError ∧
    extractState "hotend_1_id"
      [("heads", .arr [.obj [("extruders", .arr [.obj []])]])] .null
      = .error (.keyError "hotend") ∧
    extractState "active_material_1_guid" [("heads", .arr [])] .null
      = .error .indexError :=
  ⟨rfl, rfl, rfl, rfl, rfl, rfl⟩

/-- C4 (the code contradicts the claim): a GUID that matches no entry of
`MATERIAL_LIST` makes `__translate`'s `next(...)` raise `StopIteration` (no
default is supplied), both in isolation and through the
`active_material_1_guid` extraction; a GUID present in the catalog resolves
normally, so the failure is exactly the lookup miss. -/
theorem unknown_guid_raises :
    translate (.str "00000000-0000-0000-0000-000000000000") = .error .stopIteration ∧
    extractState "active_material_1_guid"
      [("heads", .arr [.obj [("extruders", .arr [.obj [("active_material",
        .obj [("guid", .str "00000000-0000-0000-0000-000000000000")])]])]])]
      .null = .error .stopIteration ∧
    extractState "active_material_2_guid"
      [("heads", .arr [.obj [("extruders", .arr [.obj [], .obj [("active_material",
        .obj [("guid", .str "506c9f0d-e3aa-4bd4-b2d2-23e2425b1aa9")])]])]])]
      .null = .ok (.str "PLA - Generic") :=
  ⟨rfl, rfl, rfl⟩

/-- C10: when the data source's latest snapshot is `None` — as after
construction with no completed refresh, or with no host configured, in which
case a refresh leaves `self._data` as `None` — the sensor's update hook
returns without error and leaves `self._state` and `self._last_updated`
exactly as they were; for a freshly constructed sensor both stay `None`. -/
theorem none_snapshot_noop (ty : String) (s : SensorState) (now : ℕ)
    (printer printJob system : FetchOutcome) :
    sensorAsyncUpdate ty none s = .ok s ∧
    sensorAsyncUpdate ty none initSensorState = .ok ⟨.null, .null⟩ ∧
    ((refresh ⟨none, none⟩ now false printer printJob system).1).data = none :=
  ⟨rfl, rfl, rfl⟩

end Ultimaker

namespace Ultimaker

/-- C5: if any endpoint's fetch raises a connection-level `aiohttp.ClientError`,
`async_update` publishes the fallback snapshot `{status: "not connected"}`
stamped with the current time and raises nothing; over that snapshot every one
of the 16 metric extractions succeeds, and the `status` metric evaluates to
`"not connected"`. -/
theorem connection_error_fallback (now : ℕ) (printer printJob system : FetchOutcome)
    (ty : String) (prev : JVal)
    (hconn : printer = .clientError ∨ printJob = .clientError ∨ system = .clientError)
    (hty : ty ∈ SENSOR_TYPES) :
    refreshCore now printer printJob system = fallbackSnapshot now ∧
    (extractState ty (fallbackSnapshot now) prev).isOk = true ∧
    extractState "status" (fallbackSnapshot now) prev = .ok (.str "not connected") := by
  refine ⟨?_, ?_, rfl⟩
  · rcases hconn with h | h | h
    · subst h; rfl
    · subst h; cases printer <;> rfl
    · subst h; cases printer <;> cases printJob <;> rfl
  · fin_cases hty <;> rfl

/-- C5 witness: a connection error on all three endpoints at time 0, checked
for the `bed_temperature` extraction on a fresh sensor state. -/
theorem connection_error_fallback_witness :
    refreshCore 0 .clientError .clientError .clientError = fallbackSnapshot 0 ∧
    (extractState "bed_temperature" (fallbackSnapshot 0) .null).isOk = true ∧
    extractState "status" (fallbackSnapshot 0) .null = .ok (.str "not connected") :=
  connection_error_fallback 0 .clientError .clientError .clientError "bed_temperature" .null
    (Or.inl rfl) (by decide)

/-- C6: a second call to the throttled `async_update` made less than
`MIN_TIME_BETWEEN_UPDATES` seconds after the recorded last attempt issues no
network request (the request count is 0) and leaves the source's state —
including the retained snapshot and its `sampleTime` stamp — unchanged. -/
theorem throttle_short_circuit (s : ThrottledSource) (now t : ℕ) (host : Bool)
    (printer printJob system : FetchOutcome)
    (hlast : s.lastAttempt = some t)
    (hlt : now - t < MIN_TIME_BETWEEN_UPDATES) :
    refresh s now host printer printJob system = (s, 0) := by
  unfold refresh
  rw [hlast]
  simp [hlt]

/-- C6 witness: a source last refreshed at time 0 and called again at time 5
with a configured host is returned unchanged with zero requests. -/
theorem throttle_short_circuit_witness :
    refresh ⟨some 0, some [("status", .str "idle")]⟩ 5 true .clientError .clientError
      .clientError = (⟨some 0, some [("status", .str "idle")]⟩, 0) :=
  throttle_short_circuit ⟨some 0, some [("status", .str "idle")]⟩ 5 0 true
    .clientError .clientError .clientError rfl (by decide)

/-- C7: with no `bed` key in the snapshot, `bed_temperature`,
`bed_temperature_target` and `bed_type` all evaluate to null without error;
likewise when the `bed` object lacks `temperature`, or the temperature object
lacks `current`, the missing intermediate yields null rather than an error. -/
theorem missing_bed_yields_null (data o t : Dict)
    (hbed : dictFind data "bed" = none)
    (htemp : dictFind o "temperature" = none)
    (hcur : dictFind t "current" = none) :
    extractState "bed_temperature" data .null = .ok .null ∧
    extractState "bed_temperature_target" data .null = .ok .null ∧
    extractState "bed_type" data .null = .ok .null ∧
    extractState "bed_temperature" [("bed", .obj o)] .null = .ok .null ∧
    extractState "bed_temperature" [("bed", .obj [("temperature", .obj t)])] .null
      = .ok .null := by
  have hb : pyGet data "bed" = .null := by simp [pyGet, pyGetD, hbed]
  have ht : pyGet o "temperature" = .null := by simp [pyGet, pyGetD, htemp]
  have hc : pyGet t "current" = .null := by simp [pyGet, pyGetD, hcur]
  refine ⟨?_, ?_, ?_, ?_, ?_⟩
  · show (do
        let s1 ←
          if truthy (pyGet data "bed") then do
            let temperature ← pyAttrGet (pyGet data "bed") "temperature"
            if truthy temperature then pyAttrGet temperature "current" else .ok JVal.null
          else .ok JVal.null
        (.ok s1 : Except PyErr JVal)) = .ok .null
    rw [hb]; rfl
  · show (do
        let s1 ←
          if truthy (pyGet data "bed") then do
            let temperature ← pyAttrGet (pyGet data "bed") "temperature"
            if truthy temperature then pyAttrGet temperature "target" else .ok JVal.null
          else .ok JVal.null
        (.ok s1 : Except PyErr JVal)) = .ok .null
    rw [hb]; rfl
  · show (do
        let s1 ← (.ok JVal.null : Except PyErr JVal)
        if truthy (pyGet data "bed") then pyAttrGet (pyGet data "bed") "type"
        else (.ok s1 : Except PyErr JVal)) = .ok .null
    rw [hb]; rfl
  · cases o with
    | nil => rfl
    | cons x ts =>
      have hto : pyGet (x :: ts) "temperature" = .null := by simp [pyGet, pyGetD, htemp]
      show (do
          let s1 ←
            if truthy (pyGet (x :: ts) "temperature") then
              pyAttrGet (pyGet (x :: ts) "temperature") "current"
            else (.ok JVal.null : Except PyErr JVal)
          (.ok s1 : Except PyErr JVal)) = .ok .null
      rw [hto]
      rfl
  · cases t with
    | nil => rfl
    | cons x ts =>
      have hco : pyGet (x :: ts) "current" = .null := by simp [pyGet, pyGetD, hcur]
      show (Except.ok (pyGet (x :: ts) "current") : Except PyErr JVal) = .ok .null
      rw [hco]

/-- C7 witness: the empty snapshot and empty intermediate objects. -/
theorem missing_bed_yields_null_witness :
    extractState "bed_temperature" [] .null = .ok .null ∧
    extractState "bed_temperature_target" [] .null = .ok .null ∧
    extractState "bed_type" [] .null = .ok .null ∧
    extractState "bed_temperature" [("bed", .obj [])] .null = .ok .null ∧
    extractState "bed_temperature" [("bed", .obj [("temperature", .obj [])])] .null
      = .ok .null :=
  missing_bed_yields_null [] [] [] rfl rfl rfl

end Ultimaker

namespace Ultimaker

/-- C8: the extraction stores the full-precision value (here a bed temperature
read from the snapshot), and rounding to the configured decimal precision
happens only in the `state` presentation property, which applies `round` to
float states and passes every other value — strings, `None` — through
unchanged; with precision 1, `23.456` presents as `23.5`. -/
theorem rounding_only_at_presentation (q : ℚ) (s : String) (d : ℕ) (prev : JVal) :
    extractState "bed_temperature" (bedSnap q) prev = .ok (.num q) ∧
    stateProperty (.num q) d = .num (pyRound q d) ∧
    stateProperty (.str s) d = .str s ∧
    stateProperty .null d = .null ∧
    pyRound (23456/1000) 1 = 47/2 := by
  refine ⟨rfl, rfl, rfl, rfl, ?_⟩
  have hx : (23456/1000 : ℚ) * 10 ^ 1 = 5864/25 := by norm_num
  have hfl : ⌊(5864/25 : ℚ)⌋ = 234 := by
    rw [Int.floor_eq_iff]
    norm_num
  simp only [pyRound, hx, roundHalfEven, hfl]
  norm_num

/-- C9: the `progress` metric is the snapshot's `progress` field scaled by 100
(for the value 0 the scaling branch is skipped but the result is still 0, so
the equation holds for every fraction), it defaults to 0 when the field is
absent, and 0.37 yields exactly 37. -/
theorem progress_scaling (q : ℚ) (data : Dict) (prev prev2 prev3 : JVal)
    (habs : dictFind data "progress" = none) :
    extractState "progress" [("progress", .num q)] prev = .ok (.num (q * 100)) ∧
    extractState "progress" data prev2 = .ok (.num 0) ∧
    extractState "progress" [("progress", .num (37/100))] prev3 = .ok (.num 37) := by
  refine ⟨?_, ?_, ?_⟩
  · show (if truthy (.num q) then pyMul100 (.num q)
          else (.ok (.num q) : Except PyErr JVal)) = .ok (.num (q * 100))
    by_cases hq : q = 0
    · subst hq
      rw [show ((0 : ℚ) * 100 = 0) from by norm_num]
      rfl
    · rw [if_pos (by simp [truthy, hq])]
      rfl
  · show (if truthy (pyGetD data "progress" (.num 0)) then
            pyMul100 (pyGetD data "progress" (.num 0))
          else (.ok (pyGetD data "progress" (.num 0)) : Except PyErr JVal))
        = .ok (.num 0)
    rw [show pyGetD data "progress" (.num 0) = .num 0 from by simp [pyGetD, habs]]
    rfl
  · show (if truthy (.num (37/100)) then pyMul100 (.num (37/100))
          else (.ok (.num (37/100)) : Except PyErr JVal)) = .ok (.num 37)
    rw [if_pos (by simp [truthy]), show pyMul100 (.num (37/100))
        = .ok (.num ((37/100 : ℚ) * 100)) from rfl,
      show ((37/100 : ℚ) * 100 = 37) from by norm_num]

/-- C9 witness: the empty snapshot for the absent-field case, with the scaling
cases checked at 1/2, giving 50. -/
theorem progress_scaling_witness :
    extractState "progress" [("progress", .num (1/2))] .null = .ok (.num ((1/2) * 100)) ∧
    extractState "progress" [] .null = .ok (.num 0) ∧
    extractState "progress" [("progress", .num (37/100))] .null = .ok (.num 37) :=
  progress_scaling (1/2) [] .null .null .null rfl

end Ultimaker
